import Mathlib

set_option maxHeartbeats 1000000

namespace RustyShell

/-- Read-only settings of the shell, mirroring the Config struct of main.rs
(fields prompt and version). -/
structure Config where
  prompt : String
  version : String
deriving Repr, DecidableEq

/-- Mirrors the Default implementation for Config in main.rs. -/
def Config.default : Config := { prompt := ">", version := "0.1" }

/-- Model of str::trim from main.rs (buffer.trim()): drop whitespace from both
ends of the character list. -/
def trimList (l : List Char) : List Char :=
  ((l.dropWhile Char.isWhitespace).reverse.dropWhile Char.isWhitespace).reverse

/-- Model of str::split with separator character, as used in
buffer.trim().split(pipe) in main.rs.  As in Rust, splitting the empty string
yields one empty piece, and empty pieces between separators are kept. -/
def splitPipe : List Char → List (List Char)
  | [] => [[]]
  | c :: cs =>
    if c = '|' then [] :: splitPipe cs
    else
      match splitPipe cs with
      | [] => [[c]]
      | s :: ss => (c :: s) :: ss

/-- Accumulator worker for the model of str::split_whitespace. -/
def wordsAux : List Char → List Char → List (List Char)
  | [], acc => if acc.isEmpty then [] else [acc.reverse]
  | c :: cs, acc =>
    if c.isWhitespace then
      if acc.isEmpty then wordsAux cs [] else acc.reverse :: wordsAux cs []
    else wordsAux cs (c :: acc)

/-- Model of str::split_whitespace from main.rs (command.split_whitespace()):
maximal runs of non-whitespace characters, leading and trailing whitespace
ignored. -/
def splitWhitespace (l : List Char) : List String :=
  (wordsAux l []).map String.mk

/-- The parsing phase of parse_stdin in main.rs: trim the buffer, split it on
the pipe character into segments, and tokenize each segment by whitespace. -/
def parseTokens (buffer : String) : List (List String) :=
  (splitPipe (trimList buffer.data)).map splitWhitespace

/-- Model of a std::process::Child handle: the spawn order index identifies
the OS process, and stdoutPiped records whether the child was spawned with
Stdio::piped() for its standard output (so that child.stdout is Some). -/
structure Child where
  id : Nat
  stdoutPiped : Bool
deriving Repr, DecidableEq

/-- Standard-input configuration of a spawned stage: Stdio::inherit() or the
captured standard output of an earlier child. -/
inductive StdinSrc
  | inherit
  | fromChild (id : Nat)
deriving Repr, DecidableEq

/-- Standard-output configuration of a spawned stage: Stdio::inherit() or
Stdio::piped(). -/
inductive StdoutDst
  | inherit
  | piped
deriving Repr, DecidableEq

/-- Model of std::process::ExitStatus: success() and code(). -/
structure ExitStatus where
  success : Bool
  code : Option Int
deriving Repr, DecidableEq

/-- Oracle for the host operating system: the HOME variable, whether a spawn
with a given program name and argument list succeeds, whether a directory
change succeeds, and the result of waiting on the child with a given spawn
index (Except carries the error message of a failed wait). -/
structure OS where
  home : Option String
  spawnOk : String → List String → Bool
  chdirOk : String → Bool
  wait : Nat → Except String ExitStatus

/-- Observable effects of one run of parse_stdin.  printOut is a write to the
standard output of the shell; spawnError, chdirError, waitError and
printStatus are writes to its standard error; spawned, setCwd and waited are
operating-system effects. -/
inductive Event
  | spawned (id : Nat) (program : String) (args : List String)
      (stdin : StdinSrc) (stdout : StdoutDst)
  | printOut (s : String)
  | spawnError (program : String)
  | setCwd (path : String)
  | chdirError (path : String)
  | waited (id : Nat)
  | waitError (id : Nat) (msg : String)
  | printStatus (code : Int)
deriving Repr, DecidableEq

/-- Whether an event is a process spawn. -/
def Event.isSpawn : Event → Bool
  | .spawned _ _ _ _ _ => true
  | _ => false

/-- Whether an event writes to standard output or standard error of the
shell. -/
def Event.isOutput : Event → Bool
  | .printOut _ => true
  | .spawnError _ => true
  | .chdirError _ => true
  | .waitError _ _ => true
  | .printStatus _ => true
  | _ => false

/-- Whether an event is a wait (successful or failed) on the child with the
given spawn index. -/
def Event.waitsOn : Event → Nat → Bool
  | .waited i, id => i = id
  | .waitError i _, id => i = id
  | _, _ => false

/-- State carried through the segment loop of parse_stdin: the
previous_command option, the next spawn index, the current working directory
of the shell process, and the trace of effects so far. -/
structure St where
  prev : Option Child
  nextId : Nat
  cwd : String
  trace : List Event
deriving Repr, DecidableEq

/-- How the segment loop of parse_stdin ended: finished normally (all
segments consumed), returned early on an empty or skip segment, terminated
the whole process through the exit built-in, or panicked (the model of
output.stdout.unwrap() failing). -/
inductive LoopExit
  | finished
  | earlyReturn
  | exited (code : Nat)
  | panicked
deriving Repr, DecidableEq

/-- Whether a loop exit is the panic outcome. -/
def LoopExit.isPanic : LoopExit → Bool
  | .panicked => true
  | _ => false

/-- State at the top of parse_stdin: previous_command is None, no process has
been spawned, the trace is empty. -/
def initSt (cwd : String) : St :=
  { prev := none, nextId := 0, cwd := cwd, trace := [] }

/-- The while-let loop of parse_stdin in main.rs, one segment at a time.  The
first token of a segment is the program (args.next().unwrap_or("skip")), the
rest are its arguments.  Dispatch: "skip" returns from parse_stdin, "exit"
terminates the process with status 0, "version" prints the version string,
"cd" changes directory and clears previous_command, and any other program is
spawned with stdin taken from the previous child when one is held (panicking
if its stdout was not piped, as output.stdout.unwrap() would) and stdout
piped exactly when another segment follows (commands.peek().is_some()). -/
def runSegs (os : OS) (cfg : Config) : List (List String) → St → St × LoopExit
  | [], st => (st, .finished)
  | tokens :: rest, st =>
    let program := tokens.headD "skip"
    let args := tokens.tail
    if program = "skip" then
      (st, .earlyReturn)
    else if program = "exit" then
      (st, .exited 0)
    else if program = "version" then
      runSegs os cfg rest { st with trace := st.trace ++ [.printOut cfg.version] }
    else if program = "cd" then
      let home := os.home.getD "/"
      let newDir := args.headD home
      if os.chdirOk newDir then
        runSegs os cfg rest
          { st with prev := none, cwd := newDir,
                    trace := st.trace ++ [.setCwd newDir] }
      else
        runSegs os cfg rest
          { st with prev := none,
                    trace := st.trace ++ [.chdirError newDir] }
    else
      match st.prev with
      | some c =>
        if c.stdoutPiped then
          if os.spawnOk program args then
            runSegs os cfg rest
              { prev := some { id := st.nextId, stdoutPiped := !rest.isEmpty },
                nextId := st.nextId + 1, cwd := st.cwd,
                trace := st.trace ++
                  [.spawned st.nextId program args (.fromChild c.id)
                    (if rest.isEmpty then .inherit else .piped)] }
          else
            runSegs os cfg rest
              { st with prev := none,
                        trace := st.trace ++ [.spawnError program] }
        else
          (st, .panicked)
      | none =>
        if os.spawnOk program args then
          runSegs os cfg rest
            { prev := some { id := st.nextId, stdoutPiped := !rest.isEmpty },
              nextId := st.nextId + 1, cwd := st.cwd,
              trace := st.trace ++
                [.spawned st.nextId program args .inherit
                  (if rest.isEmpty then .inherit else .piped)] }
        else
          runSegs os cfg rest
            { st with prev := none,
                      trace := st.trace ++ [.spawnError program] }

/-- The block after the loop in parse_stdin: if previous_command is still
Some, wait on it; print nothing on success, print the bare status (code or 1
when code is None) to standard error on a non-zero exit, and print the error
to standard error when the wait itself fails. -/
def finalWait (os : OS) (st : St) : St :=
  match st.prev with
  | none => st
  | some c =>
    match os.wait c.id with
    | .ok status =>
      if status.success then
        { st with trace := st.trace ++ [.waited c.id] }
      else
        { st with trace := st.trace ++
            [.waited c.id, .printStatus (status.code.getD 1)] }
    | .error e =>
      { st with trace := st.trace ++ [.waitError c.id e] }

/-- Whole-function model of parse_stdin from main.rs: parse the buffer, run
the segment loop from the initial state, and run the final wait only when
the loop consumed all segments (an early return, exit, or panic skips it). -/
def parse_stdin (os : OS) (cfg : Config) (cwd : String) (buffer : String) :
    St × LoopExit :=
  match runSegs os cfg (parseTokens buffer) (initSt cwd) with
  | (st, .finished) => (finalWait os st, .finished)
  | (st, e) => (st, e)

/-- The four program names that the match in parse_stdin treats specially
(never spawned as processes): the skip sentinel and the three built-ins. -/
def isBuiltin (p : String) : Bool :=
  p == "skip" || p == "exit" || p == "version" || p == "cd"

/-- Standard-input configuration an external stage receives, as a function of
the held previous_command (previous_command.map_or(inherit, from-stdout)). -/
def stdinOf : Option Child → StdinSrc
  | none => .inherit
  | some c => .fromChild c.id

/-- Invariant used by the executor: whenever a previous child is held while
segments remain, its stdout was captured.  Stated on the whole state; holds
trivially when no child is held. -/
def prevOk (st : St) : Bool :=
  st.prev.all fun c => c.stdoutPiped

/-- Expected spawn-event trace of a pipeline of external stages that all
spawn successfully, starting at a given spawn index with a given input for
the first stage: each stage reads the captured output of the stage before it
and only the last stage keeps its output inherited. -/
def expectedSpawns (id : Nat) (src : StdinSrc) :
    List (String × List String) → List Event
  | [] => []
  | pa :: rest =>
    .spawned id pa.1 pa.2 src (if rest.isEmpty then .inherit else .piped) ::
      expectedSpawns (id + 1) (.fromChild id) rest

/-- Test oracle: every spawn and directory change succeeds, HOME is set, and
every wait reports success with code 0. -/
def osAll : OS :=
  { home := some "/home/user",
    spawnOk := fun _ _ => true,
    chdirOk := fun _ => true,
    wait := fun _ => .ok { success := true, code := some 0 } }

/-- Test oracle: the program nonexistent_cmd fails to spawn, everything else
behaves as in osAll. -/
def osMiss : OS :=
  { home := some "/home/user",
    spawnOk := fun p _ => !(p == "nonexistent_cmd"),
    chdirOk := fun _ => true,
    wait := fun _ => .ok { success := true, code := some 0 } }

/-- Test oracle: spawns succeed and the final wait reports a non-zero exit
with code 1, as the program false would produce. -/
def osFalseCmd : OS :=
  { home := some "/home/user",
    spawnOk := fun _ _ => true,
    chdirOk := fun _ => true,
    wait := fun _ => .ok { success := false, code := some 1 } }

section StepLemmas

variable (os : OS) (cfg : Config)

/-- With no segments left the loop finishes and leaves the state alone. -/
theorem runSegs_nil (st : St) : runSegs os cfg [] st = (st, .finished) := rfl

/-- A segment with no tokens makes parse_stdin return at once, changing
nothing. -/
theorem runSegs_empty_tokens (rest : List (List String)) (st : St) :
    runSegs os cfg ([] :: rest) st = (st, .earlyReturn) := rfl

/-- A segment whose first token is the sentinel skip behaves exactly like an
empty segment. -/
theorem runSegs_skip_token (args : List String) (rest : List (List String))
    (st : St) :
    runSegs os cfg (("skip" :: args) :: rest) st = (st, .earlyReturn) := rfl

/-- A segment whose first token is exit terminates the whole process with
status 0, whatever the surplus arguments are. -/
theorem runSegs_exit (args : List String) (rest : List (List String))
    (st : St) :
    runSegs os cfg (("exit" :: args) :: rest) st = (st, .exited 0) := rfl

/-- A segment whose first token is version prints the version string and
leaves the rest of the state, in particular previous_command, untouched. -/
theorem runSegs_version (args : List String) (rest : List (List String))
    (st : St) :
    runSegs os cfg (("version" :: args) :: rest) st =
      runSegs os cfg rest
        { st with trace := st.trace ++ [.printOut cfg.version] } := rfl

/-- A segment whose first token is cd changes the working directory to the
first argument, else HOME, else the root; on failure it reports the error and
leaves the directory alone; in both cases previous_command becomes None and
no wait happens. -/
theorem runSegs_cd (args : List String) (rest : List (List String))
    (st : St) :
    runSegs os cfg (("cd" :: args) :: rest) st =
      runSegs os cfg rest
        { st with
          prev := none,
          cwd := (if os.chdirOk (args.headD (os.home.getD "/")) then
              args.headD (os.home.getD "/") else st.cwd),
          trace := st.trace ++
            [(if os.chdirOk (args.headD (os.home.getD "/")) then
                Event.setCwd (args.headD (os.home.getD "/"))
              else Event.chdirError (args.headD (os.home.getD "/")))] } := by
  by_cases h : os.chdirOk (args.head?.getD (os.home.getD "/")) = true <;>
    simp [runSegs, h]

/-- A segment whose first token is none of skip, exit, version, cd is spawned
as an external program: stdin comes from the held previous child (piped by
the invariant prevOk) or is inherited, stdout is piped exactly when another
segment follows, and on spawn failure the error is reported and
previous_command becomes None. -/
theorem runSegs_external (p : String) (args : List String)
    (rest : List (List String)) (st : St)
    (hp : isBuiltin p = false) (hprev : prevOk st = true) :
    runSegs os cfg ((p :: args) :: rest) st =
      (if os.spawnOk p args then
        runSegs os cfg rest
          { prev := some { id := st.nextId, stdoutPiped := !rest.isEmpty },
            nextId := st.nextId + 1, cwd := st.cwd,
            trace := st.trace ++
              [.spawned st.nextId p args (stdinOf st.prev)
                (if rest.isEmpty then .inherit else .piped)] }
      else
        runSegs os cfg rest
          { st with prev := none,
                    trace := st.trace ++ [.spawnError p] }) := by
  simp only [isBuiltin, Bool.or_eq_false_iff, beq_eq_false_iff_ne] at hp
  obtain ⟨⟨⟨h1, h2⟩, h3⟩, h4⟩ := hp
  rcases hc : st.prev with _ | c
  · simp [runSegs, h1, h2, h3, h4, hc, stdinOf]
  · have hpip : c.stdoutPiped = true := by
      simpa [prevOk, hc] using hprev
    simp [runSegs, h1, h2, h3, h4, hc, hpip, stdinOf]

end StepLemmas

section CoreLemmas

variable (os : OS) (cfg : Config)

/-- Core pipeline lemma: a nonempty list of external segments that all spawn
successfully runs to completion; the resulting state holds the last child
with its output not piped, and the trace extends by the expected spawn
events, each stage reading the previous stage through a pipe. -/
theorem runSegs_pipeline :
    ∀ (cmds : List (String × List String)) (st : St), cmds ≠ [] →
    (cmds.all fun pa => !isBuiltin pa.1 && os.spawnOk pa.1 pa.2) = true →
    prevOk st = true →
    runSegs os cfg (cmds.map fun pa => pa.1 :: pa.2) st =
      ({ prev := some { id := st.nextId + (cmds.length - 1), stdoutPiped := false },
         nextId := st.nextId + cmds.length,
         cwd := st.cwd,
         trace := st.trace ++
           expectedSpawns st.nextId (stdinOf st.prev) cmds },
       .finished) := by
  intro cmds
  induction cmds with
  | nil => intro st h; exact absurd rfl h
  | cons pa tl ih =>
    intro st _ hall hprev
    simp only [List.all_cons, Bool.and_eq_true, Bool.not_eq_true'] at hall
    obtain ⟨⟨hb, hs⟩, htl⟩ := hall
    have htl2 : (tl.all fun pa => !isBuiltin pa.1 && os.spawnOk pa.1 pa.2)
        = true := by
      simp only [List.all_eq_true] at htl ⊢
      intro x hx
      have := htl x hx
      simp only [Bool.and_eq_true, Bool.not_eq_true'] at this
      simp [this.1, this.2]
    simp only [List.map_cons]
    rw [runSegs_external os cfg pa.1 pa.2 _ st hb hprev, if_pos hs]
    rcases tl with _ | ⟨pb, tl2⟩
    · simp [runSegs, expectedSpawns, stdinOf]
    · rw [ih _ (by simp) htl2 (by simp [prevOk])]
      simp only [expectedSpawns, stdinOf, List.isEmpty_cons, List.map_cons,
        List.length_cons, Prod.mk.injEq, St.mk.injEq, and_true]
      refine ⟨?_, ?_, trivial, ?_⟩
      · have h : st.nextId + 1 + (tl2.length + 1 - 1)
            = st.nextId + (tl2.length + 1 + 1 - 1) := by omega
        rw [h]
      · omega
      · simp [List.append_assoc]

/-- Core safety lemma: from any state in which a held child has its output
piped, the segment loop never reaches the panic outcome (the model of
output.stdout.unwrap() on a child whose stdout was not captured). -/
theorem runSegs_not_panicked :
    ∀ (segs : List (List String)) (st : St), prevOk st = true →
    ((runSegs os cfg segs st).2).isPanic = false := by
  intro segs
  induction segs with
  | nil => intro st _; rfl
  | cons tokens rest ih =>
    intro st hprev
    rcases tokens with _ | ⟨p, args⟩
    · rfl
    · by_cases hb : isBuiltin p = true
      · simp only [isBuiltin, Bool.or_eq_true, beq_iff_eq] at hb
        rcases hb with ((h | h) | h) | h <;> subst h
        · rfl
        · rfl
        · rw [runSegs_version]
          exact ih _ (by simpa [prevOk] using hprev)
        · rw [runSegs_cd]
          exact ih _ (by simp [prevOk])
      · rw [runSegs_external os cfg p args rest st (by simpa using hb) hprev]
        by_cases hs : os.spawnOk p args = true
        · rw [if_pos hs]
          rcases rest with _ | ⟨seg2, rest2⟩
          · rfl
          · exact ih _ (by simp [prevOk])
        · rw [if_neg hs]
          exact ih _ (by simp [prevOk])

/-- Index view of the expected pipeline trace: the stage at position i is
spawned with index id + i, reads the initial source when i = 0 and the
captured output of spawn id + i - 1 otherwise, and keeps its output
inherited exactly when it is the last stage. -/
theorem expectedSpawns_get :
    ∀ (cmds : List (String × List String)) (id : Nat) (src : StdinSrc)
      (i : Nat) (pa : String × List String), cmds.get? i = some pa →
    (expectedSpawns id src cmds).get? i =
      some (.spawned (id + i) pa.1 pa.2
        (if i = 0 then src else .fromChild (id + i - 1))
        (if i = cmds.length - 1 then .inherit else .piped)) := by
  intro cmds
  induction cmds with
  | nil => intro id src i pa h; simp at h
  | cons pb tl ih =>
    intro id src i pa h
    rcases i with _ | j
    · simp only [List.get?_cons_zero, Option.some.injEq] at h
      subst h
      rcases tl with _ | ⟨pc, tl2⟩ <;> simp [expectedSpawns]
    · simp only [List.get?_cons_succ] at h
      have hj : j < tl.length := (List.get?_eq_some.mp h).1
      have hstep : (expectedSpawns id src (pb :: tl)).get? (j + 1)
          = (expectedSpawns (id + 1) (.fromChild id) tl).get? j := by
        simp [expectedSpawns]
      rw [hstep, ih (id + 1) (.fromChild id) j pa h]
      simp only [Option.some.injEq, Event.spawned.injEq]
      refine ⟨by omega, trivial, trivial, ?_, ?_⟩
      · rcases j with _ | j2
        · simp
        · simp only [Nat.succ_ne_zero, if_false]
          congr 1
          omega
      · simp only [List.length_cons]
        by_cases hc : j = tl.length - 1
        · rw [if_pos hc, if_pos (by omega)]
        · rw [if_neg hc, if_neg (by omega)]

/-- Length of the expected pipeline trace. -/
theorem expectedSpawns_length :
    ∀ (cmds : List (String × List String)) (id : Nat) (src : StdinSrc),
    (expectedSpawns id src cmds).length = cmds.length := by
  intro cmds
  induction cmds with
  | nil => intro id src; rfl
  | cons pa tl ih => intro id src; simp [expectedSpawns, ih]

/-- Dropping a prefix by a predicate every element satisfies drops the whole
list. -/
theorem dropWhile_eq_nil_of_all {α : Type} (p : α → Bool) :
    ∀ l : List α, l.all p = true → l.dropWhile p = [] := by
  intro l
  induction l with
  | nil => intro h; rfl
  | cons c cs ih =>
    intro h
    simp only [List.all_cons, Bool.and_eq_true] at h
    simp [List.dropWhile, h.1, ih h.2]

/-- The final wait only appends events to the trace. -/
theorem finalWait_trace (os : OS) (st : St) :
    ∃ tl, (finalWait os st).trace = st.trace ++ tl := by
  rcases hc : st.prev with _ | c
  · exact ⟨[], by simp [finalWait, hc]⟩
  · rcases hw : os.wait c.id with e | status
    · exact ⟨[.waitError c.id e], by simp [finalWait, hc, hw]⟩
    · by_cases hs : status.success = true
      · exact ⟨[.waited c.id], by simp [finalWait, hc, hw, hs]⟩
      · exact ⟨[.waited c.id, .printStatus (status.code.getD 1)],
          by simp [finalWait, hc, hw, hs]⟩

end CoreLemmas

section Claims

/-- Claim C1, counterexample: at the input line skip, the first token is none
of the three built-ins exit, version, cd and the oracle would let any program
spawn, yet the executor spawns nothing and aborts the line, because the
internal sentinel skip receives built-in treatment. -/
theorem C1_skip_counterexample :
    ("skip" == "exit") = false ∧ ("skip" == "version") = false ∧
    ("skip" == "cd") = false ∧ osAll.spawnOk "skip" [] = true ∧
    parse_stdin osAll Config.default "/" "skip" = (initSt "/", .earlyReturn) ∧
    ((parse_stdin osAll Config.default "/" "skip").1.trace.any
      Event.isSpawn) = false := by
  decide

/-- Claim C1 as amended: a segment whose first token is none of exit,
version, cd and also not the sentinel skip is treated as an external program
name, spawned through the OS with the remaining tokens as positional
arguments (stdin from the held previous stage or inherited, stdout piped
exactly when a segment follows, the failure reported otherwise); the token
skip is the one further token with interpreter-internal treatment: it aborts
the line exactly like an empty segment. -/
theorem C1_external_dispatch :
    (∀ (os : OS) (cfg : Config) (p : String) (args : List String)
      (rest : List (List String)) (st : St),
      isBuiltin p = false → prevOk st = true →
      runSegs os cfg ((p :: args) :: rest) st =
        (if os.spawnOk p args then
          runSegs os cfg rest
            { prev := some { id := st.nextId, stdoutPiped := !rest.isEmpty },
              nextId := st.nextId + 1, cwd := st.cwd,
              trace := st.trace ++
                [.spawned st.nextId p args (stdinOf st.prev)
                  (if rest.isEmpty then .inherit else .piped)] }
        else
          runSegs os cfg rest
            { st with prev := none,
                      trace := st.trace ++ [.spawnError p] })) ∧
    (∀ (os : OS) (cfg : Config) (args : List String)
      (rest : List (List String)) (st : St),
      runSegs os cfg (("skip" :: args) :: rest) st = (st, .earlyReturn)) :=
  ⟨fun os cfg p args rest st hb hp =>
    runSegs_external os cfg p args rest st hb hp,
   fun os cfg args rest st => runSegs_skip_token os cfg args rest st⟩

/-- Witness for C1 at concrete inputs: the program ls with one argument is
spawned, and a line starting with the token skip aborts. -/
theorem C1_external_dispatch_witness :
    isBuiltin "ls" = false ∧ prevOk (initSt "/") = true ∧
    ((runSegs osAll Config.default [["ls", "-l"]] (initSt "/")).1.trace.any
      Event.isSpawn) = true ∧
    runSegs osAll Config.default [["skip", "x"]] (initSt "/")
      = (initSt "/", .earlyReturn) := by
  refine ⟨by decide, by decide, ?_, ?_⟩
  · have h := C1_external_dispatch.1 osAll Config.default "ls" ["-l"] []
      (initSt "/") (by decide) (by decide)
    rw [h]
    decide
  · exact C1_external_dispatch.2 osAll Config.default ["x"] [] (initSt "/")

/-- Claim C2: for an all-external pipeline of at least two stages that all
spawn successfully, the stage at position i reads the captured output of the
stage at position i - 1 (the first stage inherits the shell input) and only
the last stage keeps the shell output; a single external command inherits
both streams and the shell then waits on it. -/
theorem C2_pipeline_wiring :
    (∀ (os : OS) (cfg : Config) (cwd buffer : String)
      (cmds : List (String × List String)),
      parseTokens buffer = cmds.map (fun pa => pa.1 :: pa.2) →
      2 ≤ cmds.length →
      (cmds.all fun pa => !isBuiltin pa.1 && os.spawnOk pa.1 pa.2) = true →
      ∀ (i : Nat) (pa : String × List String), cmds.get? i = some pa →
      (parse_stdin os cfg cwd buffer).1.trace.get? i =
        some (.spawned i pa.1 pa.2
          (if i = 0 then .inherit else .fromChild (i - 1))
          (if i = cmds.length - 1 then .inherit else .piped))) ∧
    (∀ (os : OS) (cfg : Config) (cwd buffer : String) (p : String)
      (args : List String),
      parseTokens buffer = [p :: args] →
      isBuiltin p = false → os.spawnOk p args = true →
      (parse_stdin os cfg cwd buffer).1.trace.get? 0 =
        some (.spawned 0 p args .inherit .inherit) ∧
      ((parse_stdin os cfg cwd buffer).1.trace.any
        fun e => e.waitsOn 0) = true) := by
  constructor
  · intro os cfg cwd buffer cmds hparse hlen hall i pa hget
    have hne : cmds ≠ [] := by
      intro h; subst h; simp at hlen
    have hrun := runSegs_pipeline os cfg cmds (initSt cwd) hne hall rfl
    simp only [parse_stdin, hparse, hrun]
    obtain ⟨tl, htl⟩ := finalWait_trace os _
    rw [htl]
    have hi : i < (expectedSpawns (initSt cwd).nextId
        (stdinOf (initSt cwd).prev) cmds).length := by
      rw [expectedSpawns_length]
      exact (List.get?_eq_some.mp hget).1
    simp only [initSt, List.nil_append]
    rw [List.get?_append (by simpa [initSt] using hi)]
    rw [expectedSpawns_get cmds 0 (stdinOf none) i pa hget]
    simp [stdinOf]
  · intro os cfg cwd buffer p args hparse hb hs
    have hrun := runSegs_pipeline os cfg [(p, args)] (initSt cwd)
      (by simp) (by simp [hb, hs]) rfl
    simp only [List.map_cons, List.map_nil] at hrun
    simp only [parse_stdin, hparse, hrun]
    simp only [finalWait, initSt, expectedSpawns, stdinOf, List.nil_append]
    rcases hw : os.wait 0 with e | status
    · simp [hw, Event.waitsOn]
    · by_cases hsuc : status.success = true <;>
        simp [hw, hsuc, Event.waitsOn]

/-- Witness for C2 at concrete inputs: the two-stage line echo hello piped
into tr has its second stage reading the captured output of the first, and
the single command false is spawned with both streams inherited and then
waited on. -/
theorem C2_pipeline_wiring_witness :
    parseTokens "echo hello | tr a-z A-Z" =
      ([("echo", ["hello"]), ("tr", ["a-z", "A-Z"])].map
        fun pa => pa.1 :: pa.2) ∧
    (parse_stdin osAll Config.default "/" "echo hello | tr a-z A-Z").1.trace.get? 1 =
      some (.spawned 1 "tr" ["a-z", "A-Z"] (.fromChild 0) .inherit) ∧
    (parse_stdin osFalseCmd Config.default "/" "false").1.trace.get? 0 =
      some (.spawned 0 "false" [] .inherit .inherit) ∧
    ((parse_stdin osFalseCmd Config.default "/" "false").1.trace.any
      fun e => e.waitsOn 0) = true := by
  refine ⟨by decide, ?_, ?_, ?_⟩
  · have h := C2_pipeline_wiring.1 osAll Config.default "/"
      "echo hello | tr a-z A-Z" [("echo", ["hello"]), ("tr", ["a-z", "A-Z"])]
      (by decide) (by decide) (by decide) 1 ("tr", ["a-z", "A-Z"]) (by decide)
    simpa using h
  · exact (C2_pipeline_wiring.2 osFalseCmd Config.default "/" "false"
      "false" [] (by decide) (by decide) (by decide)).1
  · exact (C2_pipeline_wiring.2 osFalseCmd Config.default "/" "false"
      "false" [] (by decide) (by decide) (by decide)).2

/-- Claim C3, counterexample: on the input line consisting of a program a
followed by a pipe and nothing else, the empty second segment fires the
abort, yet at that moment a process for the first segment has already been
spawned (with its output piped), and the early return discards that held
handle without waiting on it. -/
theorem C3_abort_after_spawn_counterexample :
    (parse_stdin osAll Config.default "/" "a|").2 = .earlyReturn ∧
    ((parse_stdin osAll Config.default "/" "a|").1.trace.any
      Event.isSpawn) = true ∧
    (parse_stdin osAll Config.default "/" "a|").1.trace =
      [.spawned 0 "a" [] .inherit .piped] ∧
    ((parse_stdin osAll Config.default "/" "a|").1.trace.any
      fun e => e.waitsOn 0) = false := by
  decide

/-- Claim C3 as amended: a segment with no tokens makes the executor abort
all remaining segments immediately and return without error and without
touching the state — no spawn happens for that segment — but processes
spawned for earlier segments of the same line may already exist, and the
early return also skips the final wait, discarding any held handle. -/
theorem C3_empty_segment_abort :
    (∀ (os : OS) (cfg : Config) (rest : List (List String)) (st : St),
      runSegs os cfg ([] :: rest) st = (st, .earlyReturn)) ∧
    (∀ (os : OS) (cfg : Config) (cwd buffer : String) (st : St),
      runSegs os cfg (parseTokens buffer) (initSt cwd) =
        (st, .earlyReturn) →
      parse_stdin os cfg cwd buffer = (st, .earlyReturn)) :=
  ⟨fun os cfg rest st => runSegs_empty_tokens os cfg rest st,
   fun os cfg cwd buffer st h => by simp [parse_stdin, h]⟩

/-- Witness for C3 at concrete inputs: the empty-segment step leaves an
arbitrary concrete state alone, and on the line with a trailing pipe the
whole run returns early with exactly the one already-spawned stage in the
trace. -/
theorem C3_empty_segment_abort_witness :
    runSegs osAll Config.default ([] :: [["b"]]) (initSt "/")
      = (initSt "/", .earlyReturn) ∧
    runSegs osAll Config.default (parseTokens "a|") (initSt "/") =
      ({ prev := some { id := 0, stdoutPiped := true }, nextId := 1,
         cwd := "/",
         trace := [.spawned 0 "a" [] .inherit .piped] }, .earlyReturn) ∧
    parse_stdin osAll Config.default "/" "a|" =
      ({ prev := some { id := 0, stdoutPiped := true }, nextId := 1,
         cwd := "/",
         trace := [.spawned 0 "a" [] .inherit .piped] }, .earlyReturn) := by
  refine ⟨C3_empty_segment_abort.1 osAll Config.default [["b"]] (initSt "/"),
    by decide, ?_⟩
  exact C3_empty_segment_abort.2 osAll Config.default "/" "a|" _ (by decide)

/-- Claim C4: when the loop consumes every segment and still holds a child,
parse_stdin blocks on that child: on exit status 0 nothing is printed, on a
non-zero status the bare numeric code (1 when the OS reports none) goes to
the error stream, and a failed wait reports its error; in every case the
outcome stays finished, so the interactive loop continues. -/
theorem C4_final_wait :
    ∀ (os : OS) (cfg : Config) (cwd buffer : String) (st : St) (c : Child),
    runSegs os cfg (parseTokens buffer) (initSt cwd) = (st, .finished) →
    st.prev = some c →
    parse_stdin os cfg cwd buffer =
      ({ st with trace := st.trace ++
          (match os.wait c.id with
           | .ok status =>
             if status.success then [.waited c.id]
             else [.waited c.id, .printStatus (status.code.getD 1)]
           | .error e => [.waitError c.id e]) }, .finished) := by
  intro os cfg cwd buffer st c hrun hprev
  simp only [parse_stdin, hrun]
  simp only [finalWait, hprev]
  rcases hw : os.wait c.id with e | status
  · simp [hw]
  · by_cases hsuc : status.success = true <;> simp [hw, hsuc]

/-- Witness for C4 at a concrete input: the single command false runs with
an exit status of 1, and the bare code 1 is printed to the error stream
after the wait. -/
theorem C4_final_wait_witness :
    runSegs osFalseCmd Config.default (parseTokens "false") (initSt "/") =
      ({ prev := some { id := 0, stdoutPiped := false }, nextId := 1,
         cwd := "/",
         trace := [.spawned 0 "false" [] .inherit .inherit] },
       .finished) ∧
    ({ prev := some { id := 0, stdoutPiped := false }, nextId := 1,
       cwd := "/",
       trace := [.spawned 0 "false" [] .inherit .inherit] } : St).prev
      = some { id := 0, stdoutPiped := false } ∧
    parse_stdin osFalseCmd Config.default "/" "false" =
      ({ prev := some { id := 0, stdoutPiped := false }, nextId := 1,
         cwd := "/",
         trace := [.spawned 0 "false" [] .inherit .inherit,
           .waited 0, .printStatus 1] }, .finished) := by
  refine ⟨by decide, by decide, ?_⟩
  have h := C4_final_wait osFalseCmd Config.default "/" "false"
    { prev := some { id := 0, stdoutPiped := false }, nextId := 1,
      cwd := "/",
      trace := [.spawned 0 "false" [] .inherit .inherit] }
    { id := 0, stdoutPiped := false } (by decide) (by decide)
  rw [h]
  rfl

/-- Claim C5: the cd built-in changes the working directory to the first
argument when present, else to HOME, else to the root; on failure the error
goes to the error stream (a chdirError event) and the directory is
unchanged; in every case the loop continues on the remaining segments with
previous_command set to None, and no wait event is produced by the step. -/
theorem C5_cd_builtin :
    ∀ (os : OS) (cfg : Config) (args : List String)
      (rest : List (List String)) (st : St),
    runSegs os cfg (("cd" :: args) :: rest) st =
      runSegs os cfg rest
        { st with
          prev := none,
          cwd := (if os.chdirOk (args.headD (os.home.getD "/")) then
              args.headD (os.home.getD "/") else st.cwd),
          trace := st.trace ++
            [(if os.chdirOk (args.headD (os.home.getD "/")) then
                Event.setCwd (args.headD (os.home.getD "/"))
              else Event.chdirError (args.headD (os.home.getD "/")))] } :=
  fun os cfg args rest st => runSegs_cd os cfg args rest st

/-- Claim C6: a failed spawn is reported to the error stream and clears
previous_command, and processing continues; in a two-stage line whose first
stage fails to spawn and whose second spawns, the second stage falls back to
inheriting the shell input (no pipe), runs with its output inherited, and is
the stage waited on. -/
theorem C6_spawn_failure :
    (∀ (os : OS) (cfg : Config) (p : String) (args : List String)
      (rest : List (List String)) (st : St),
      isBuiltin p = false → prevOk st = true → os.spawnOk p args = false →
      runSegs os cfg ((p :: args) :: rest) st =
        runSegs os cfg rest
          { st with prev := none,
                    trace := st.trace ++ [.spawnError p] }) ∧
    (∀ (os : OS) (cfg : Config) (cwd buffer : String) (p1 p2 : String)
      (a1 a2 : List String),
      parseTokens buffer = [p1 :: a1, p2 :: a2] →
      isBuiltin p1 = false → isBuiltin p2 = false →
      os.spawnOk p1 a1 = false → os.spawnOk p2 a2 = true →
      (parse_stdin os cfg cwd buffer).1.trace.take 2 =
        [.spawnError p1, .spawned 0 p2 a2 .inherit .inherit] ∧
      ((parse_stdin os cfg cwd buffer).1.trace.any
        fun e => e.waitsOn 0) = true) := by
  constructor
  · intro os cfg p args rest st hb hprev hs
    rw [runSegs_external os cfg p args rest st hb hprev,
      if_neg (by simp [hs])]
  · intro os cfg cwd buffer p1 p2 a1 a2 hparse hb1 hb2 hs1 hs2
    have h1 := runSegs_external os cfg p1 a1 [p2 :: a2] (initSt cwd) hb1 rfl
    rw [if_neg (by simp [hs1])] at h1
    simp only [initSt, List.nil_append] at h1
    have h2 := runSegs_external os cfg p2 a2 []
      { prev := none, nextId := 0, cwd := cwd,
        trace := [Event.spawnError p1] } hb2 rfl
    rw [if_pos hs2] at h2
    have hrun : runSegs os cfg (parseTokens buffer) (initSt cwd) =
        ({ prev := some { id := 0, stdoutPiped := false }, nextId := 1,
           cwd := cwd,
           trace := [Event.spawnError p1,
             Event.spawned 0 p2 a2 .inherit .inherit] }, .finished) := by
      rw [hparse]
      simp only [initSt]
      rw [h1, h2, runSegs_nil]
      rfl
    simp only [parse_stdin, hrun]
    simp only [finalWait]
    rcases hw : os.wait 0 with e | status
    · simp [hw, Event.waitsOn]
    · by_cases hsuc : status.success = true <;>
        simp [hw, hsuc, Event.waitsOn]

/-- Witness for C6 at concrete inputs: the step equation at a failing spawn
of the program a, and the two-stage line with a misspelled first program
where echo hi still runs reading the inherited input and is waited on. -/
theorem C6_spawn_failure_witness :
    isBuiltin "nonexistent_cmd" = false ∧ prevOk (initSt "/") = true ∧
    osMiss.spawnOk "nonexistent_cmd" [] = false ∧
    runSegs osMiss Config.default [["nonexistent_cmd"]] (initSt "/") =
      runSegs osMiss Config.default []
        { initSt "/" with
          prev := none,
          trace := (initSt "/").trace ++ [.spawnError "nonexistent_cmd"] } ∧
    parseTokens "nonexistent_cmd | echo hi" =
      [["nonexistent_cmd"], ["echo", "hi"]] ∧
    (parse_stdin osMiss Config.default "/"
      "nonexistent_cmd | echo hi").1.trace.take 2 =
      [.spawnError "nonexistent_cmd",
       .spawned 0 "echo" ["hi"] .inherit .inherit] ∧
    ((parse_stdin osMiss Config.default "/"
      "nonexistent_cmd | echo hi").1.trace.any
      fun e => e.waitsOn 0) = true := by
  refine ⟨by decide, by decide, by decide, ?_, by decide, ?_, ?_⟩
  · exact C6_spawn_failure.1 osMiss Config.default "nonexistent_cmd" []
      [] (initSt "/") (by decide) (by decide) (by decide)
  · exact (C6_spawn_failure.2 osMiss Config.default "/"
      "nonexistent_cmd | echo hi" "nonexistent_cmd" "echo" [] ["hi"]
      (by decide) (by decide) (by decide) (by decide) (by decide)).1
  · exact (C6_spawn_failure.2 osMiss Config.default "/"
      "nonexistent_cmd | echo hi" "nonexistent_cmd" "echo" [] ["hi"]
      (by decide) (by decide) (by decide) (by decide) (by decide)).2

/-- Claim C7, counterexample: version keeps the previous-stage handle, so
the output of the stage before it is not discarded: in the line a, version,
b, the stage b consumes the captured output of a (event spawned 1 b with
input fromChild 0), and when version ends the line the held stage a is
waited on at pipeline end (event waited 0). -/
theorem C7_version_counterexample :
    (parse_stdin osAll Config.default "/" "a | version | b").1.trace =
      [.spawned 0 "a" [] .inherit .piped, .printOut "0.1",
       .spawned 1 "b" [] (.fromChild 0) .inherit, .waited 1] ∧
    (parse_stdin osAll Config.default "/" "a | version").1.trace =
      [.spawned 0 "a" [] .inherit .piped, .printOut "0.1", .waited 0] := by
  decide

/-- Claim C7 as amended: a version segment prints the configured version
string to the shell output and changes nothing else: previous_command, the
spawn counter and the working directory are untouched, and the loop
continues with the remaining segments; hence the held previous stage stays
in place — it is consumed by a following external stage or waited on at
pipeline end, and only a piped output that no later stage reads is
discarded. -/
theorem C7_version_builtin :
    ∀ (os : OS) (cfg : Config) (args : List String)
      (rest : List (List String)) (st : St),
    runSegs os cfg (("version" :: args) :: rest) st =
      runSegs os cfg rest
        { st with trace := st.trace ++ [.printOut cfg.version] } :=
  fun os cfg args rest st => runSegs_version os cfg args rest st

/-- Claim C8: an input line consisting only of whitespace spawns no process
and produces no output: the run returns early in the initial state with an
empty trace. -/
theorem C8_whitespace_noop :
    ∀ (os : OS) (cfg : Config) (cwd buffer : String),
    buffer.data.all Char.isWhitespace = true →
    parse_stdin os cfg cwd buffer = (initSt cwd, .earlyReturn) ∧
    (parse_stdin os cfg cwd buffer).1.trace = [] := by
  intro os cfg cwd buffer h
  have hdrop : buffer.data.dropWhile Char.isWhitespace = [] :=
    dropWhile_eq_nil_of_all Char.isWhitespace buffer.data h
  have ht : trimList buffer.data = [] := by
    simp [trimList, hdrop]
  have hp : parseTokens buffer = [[]] := by
    simp [parseTokens, ht]
    rfl
  constructor
  · simp [parse_stdin, hp]
    rfl
  · simp [parse_stdin, hp]
    rfl

/-- Witness for C8 at a concrete input: a line of one space and one tab. -/
theorem C8_whitespace_noop_witness :
    (" \t".data.all Char.isWhitespace) = true ∧
    parse_stdin osAll Config.default "/" " \t" =
      (initSt "/", .earlyReturn) := by
  refine ⟨by decide, ?_⟩
  exact (C8_whitespace_noop osAll Config.default "/" " \t" (by decide)).1

/-- Claim C9: the stdout extraction previous_command.stdout.unwrap() can
never fail: a child is stored only on a successful spawn, its stdout is
piped exactly when a further segment followed at spawn time, and that is the
only case in which a later external stage reads it — so no run of
parse_stdin, on any input and any oracle, reaches the panic outcome. -/
theorem C9_stdout_extraction_safe :
    ∀ (os : OS) (cfg : Config) (cwd buffer : String),
    ((parse_stdin os cfg cwd buffer).2).isPanic = false := by
  intro os cfg cwd buffer
  have h := runSegs_not_panicked os cfg (parseTokens buffer) (initSt cwd) rfl
  rcases hr : runSegs os cfg (parseTokens buffer) (initSt cwd) with ⟨st, e⟩
  rw [hr] at h
  cases e <;> simp_all [parse_stdin, hr]

/-- Claim C10: built-in dispatch looks only at the first token and silently
ignores surplus arguments: exit with arguments still ends the process with
status 0, version with arguments still prints only the version string, and
cd with extra arguments behaves exactly as cd with just the first one, with
no error reported for the surplus. -/
theorem C10_surplus_arguments :
    ∀ (os : OS) (cfg : Config) (args extra : List String) (a : String)
      (rest : List (List String)) (st : St),
    runSegs os cfg (("exit" :: args) :: rest) st = (st, .exited 0) ∧
    runSegs os cfg (("version" :: args) :: rest) st =
      runSegs os cfg rest
        { st with trace := st.trace ++ [.printOut cfg.version] } ∧
    runSegs os cfg (("cd" :: a :: extra) :: rest) st =
      runSegs os cfg (("cd" :: [a]) :: rest) st :=
  fun _ _ _ _ _ _ _ => ⟨rfl, rfl, rfl⟩

end Claims

end RustyShell
